import Mathlib

/-!
Shallow embedding of the `imageresize` repository (src/config.py,
src/image_service.py) and proofs about the claims of its specification.

Modelling conventions:
  * Python strings are Lean `String`s; `str.lower()` is `pyLower`
    (character-wise ASCII lowering), `str.endswith` is `pyEndsWith`
    (suffix match on the character list), `os.path.join` concatenates
    with a separator.
  * File sizes are byte counts (`Nat`), modification times are `Nat` stamps.
  * The filesystem is a pure record: `stat` returns `none` exactly when the
    path does not exist (then `os.stat` raises and `os.path.exists` is
    false); `decode` is the external imaging library's open-and-verify of
    the file at a path, `.error e` being a decode/verify failure with
    exception text `e`; `writeOk` says whether an image save to a path
    succeeds.
  * Exceptions that the Python code does not catch surface as
    `Except OSErr _`; code that catches all exceptions internally returns
    plain values.
  * The external imaging primitives that the pipeline delegates (LANCZOS
    resampling pixels, RGB conversion, EXIF transposition, the md5 digest)
    are function parameters of the development: the claims do not depend
    on their concrete values.
  * An image is its dimensions plus a total pixel function; only the
    pixels with `x < width` and `y < height` are meaningful.
-/

/-- An RGB pixel value as an 8-bit triple. -/
def RGB := Nat × Nat × Nat

instance : DecidableEq RGB := fun a b => instDecidableEqProd a b

/-- The opaque black fill used for the dark background, `(0, 0, 0)`. -/
def blackRGB : RGB := (0, 0, 0)

/-- The opaque white used for flattening transparency, `(255, 255, 255)`. -/
def whiteRGB : RGB := (255, 255, 255)

/-- A decoded raster image: dimensions and a pixel function. -/
structure Image where
  width : Nat
  height : Nat
  pixel : Nat → Nat → RGB

/-- PIL `Image.new('RGB', (w, h), color)`: a w×h canvas filled with one color. -/
def Image.new (w h : Nat) (color : RGB) : Image :=
  ⟨w, h, fun _ _ => color⟩

/-- PIL `dst.paste(src, (ox, oy))`: overwrite the rectangle of `dst` starting
at `(ox, oy)` with the pixels of `src`, clipped to the bounds of `dst`; the
dimensions of `dst` are unchanged. -/
def Image.paste (dst : Image) (src : Image) (ox oy : Nat) : Image :=
  { dst with pixel := fun x y =>
      if ox ≤ x ∧ x < ox + src.width ∧ oy ≤ y ∧ y < oy + src.height then
        src.pixel (x - ox) (y - oy)
      else dst.pixel x y }

/-- The type of a resampling filter: given the source image, the target
dimensions and a target coordinate, produce the resampled pixel. The
LANCZOS filter of the external imaging library is a value of this type; the
claims do not depend on which. -/
def Resample := Image → Nat → Nat → Nat → Nat → RGB

/-- PIL `img.resize((w, h), filter)`: the target dimensions with pixels
produced by the resampling filter. -/
def Image.resize (rs : Resample) (img : Image) (w h : Nat) : Image :=
  ⟨w, h, fun x y => rs img w h x y⟩

/-- Configuration fields of `Config.__init__` that the processing pipeline
reads (src/config.py lines 12-22). `supported_formats`, being assigned the
same literal on every construction, is a constant below. -/
structure Config where
  min_width : Nat
  quality : Nat
  input_dir : String
  output_dir : String
  max_file_size_mb : Nat
  enable_caching : Bool
  cache_dir : String
  retry_attempts : Nat
  retry_delay : Nat

/-- Python `str.lower()`: lower each character. -/
def pyLower (s : String) : String :=
  ⟨s.data.map Char.toLower⟩

/-- Python `str.endswith(post)`: the characters of `post` are a suffix of
the characters of `s`. -/
def pyEndsWith (s post : String) : Bool :=
  post.data.isSuffixOf s.data

/-- The list `['.jpg', '.jpeg', '.png']` assigned to `self.supported_formats`. -/
def Config.supported_formats : List String := [".jpg", ".jpeg", ".png"]

/-- `Config.is_valid_image_format` (src/config.py lines 24-26):
`any(filename.lower().endswith(ext) for ext in self.supported_formats)`. -/
def Config.is_valid_image_format (_cfg : Config) (filename : String) : Bool :=
  Config.supported_formats.any (fun ext => pyEndsWith (pyLower filename) ext)

/-- Result of `os.stat`: modification time and size in bytes. -/
structure FileStat where
  st_mtime : Nat
  st_size : Nat

/-- The filesystem and imaging backend visible to one run, as a pure record. -/
structure FileSystem where
  stat : String → Option FileStat
  decode : String → Except String Image
  writeOk : String → Bool

/-- `os.path.exists(p)` holds exactly when `os.stat` succeeds. -/
def FileSystem.pathExists (fs : FileSystem) (p : String) : Bool :=
  (fs.stat p).isSome

/-- `os.path.join` in the model: concatenation with one separator. -/
def pathJoin (a b : String) : String :=
  a ++ "/" ++ b

/-- The error of an uncaught Python `OSError` raised by `os.stat` on a
missing path. -/
inductive OSErr where
  | fileNotFound (path : String)
deriving DecidableEq

/-- The one-decimal rendering of `num / den` megabytes used by Python's
`f-string` `:.1f` format: round half to even at the first decimal digit,
then print `whole.tenth`. (`num / den` here is `bytes / 2^20`, which is
exactly representable as a double, so the float formatting is the exact
rounding of the rational value.) -/
def format1f (num den : Nat) : String :=
  let t := num * 10
  let q := t / den
  let r := t % den
  let q := if 2 * r > den ∨ (2 * r = den ∧ q % 2 = 1) then q + 1 else q
  toString (q / 10) ++ "." ++ toString (q % 10)

/-- The validation message of the unsupported-extension branch
(src/image_service.py line 77). -/
def invalidExtensionMsg : String :=
  "Invalid image extension. Supported formats are " ++
    String.intercalate ", " Config.supported_formats

/-- The validation message of the oversized-file branch
(src/image_service.py line 86): measured size in MB to one decimal place,
then the configured limit. -/
def tooLargeMsg (sizeBytes limitMb : Nat) : String :=
  "File too large (" ++ format1f sizeBytes (1024 * 1024) ++
    "MB). Maximum allowed: " ++ toString limitMb ++ "MB"

namespace ImageProcessor

/-- `ImageProcessor.validate_image` (src/image_service.py lines 64-103).
Four short-circuiting checks: extension, existence, size in MB strictly
above the configured limit (`bytes / 2^20 > limit` iff
`bytes > limit * 2^20` since the comparison of the exact double is exact),
then decode-and-verify. Every exception of the body is caught and becomes
the generic message; in the pure model only decode can fail there.
Returns `(is_valid, error_message, needs_borders)`. -/
def validate_image (cfg : Config) (fs : FileSystem) (image_path : String) :
    Bool × String × Bool :=
  if ¬ cfg.is_valid_image_format image_path then
    (false, invalidExtensionMsg, false)
  else
    match fs.stat image_path with
    | none => (false, "File does not exist", false)
    | some st =>
      if st.st_size > cfg.max_file_size_mb * (1024 * 1024) then
        (false, tooLargeMsg st.st_size cfg.max_file_size_mb, false)
      else
        match fs.decode image_path with
        | .error e => (false, "Error validating image: " ++ e, false)
        | .ok img => (true, "", decide (img.width < cfg.min_width))

/-- `ImageProcessor._add_dark_borders` (src/image_service.py lines 146-177).
If the image already meets the minimum width it is returned unchanged.
Otherwise `new_width = min_width` and
`new_height = int((new_width * height) / width)`: Python's float division
followed by `int` truncation, which for these positive magnitudes is
natural-number division. The image is resized to the new dimensions, a
black canvas of the same new dimensions is created, and the resized image
is pasted onto it at offset `(0, 0)`. -/
def add_dark_borders (rs : Resample) (cfg : Config) (img : Image) : Image :=
  if img.width ≥ cfg.min_width then img
  else
    let new_width := cfg.min_width
    let new_height := (new_width * img.height) / img.width
    let resized_img := Image.resize rs img new_width new_height
    let dark_background := Image.new new_width new_height blackRGB
    dark_background.paste resized_img 0 0

/-- Effects of one `process_single_image` call on the world outside the
counters: reading image content from the source path, saving an encoded
output image to a path, writing a cache marker file to a path. (A bare
`os.stat`, being metadata-only, is not an effect here.) -/
inductive Effect where
  | readImage (path : String)
  | writeOutput (path : String) (img : Image)
  | writeMarker (path : String)

/-- `ImageProcessor.process_image` (src/image_service.py lines 105-144).
Decode the input, normalize the mode to RGB (`convertToRGB`, abstracting
the white-background compositing of lines 120-128 of the external
library), apply EXIF orientation (`exifTranspose`, line 131), add dark
borders when requested, and save as JPEG. Every exception is caught:
the function returns success along with its effects. In the model a
failure is a decode failure or a save failure (`fs.writeOk` false). -/
def process_image (rs : Resample) (convertToRGB exifTranspose : Image → Image)
    (cfg : Config) (fs : FileSystem)
    (input_path output_path : String) (add_borders : Bool) :
    Bool × List Effect :=
  match fs.decode input_path with
  | .error _ => (false, [.readImage input_path])
  | .ok img =>
    let img1 := exifTranspose (convertToRGB img)
    let img2 := if add_borders then add_dark_borders rs cfg img1 else img1
    if fs.writeOk output_path then
      (true, [.readImage input_path, .writeOutput output_path img2])
    else
      (false, [.readImage input_path])

/-- `ImageProcessor.get_cache_key` (src/image_service.py lines 179-182):
`md5(f"{file_path}_{stat.st_mtime}_{stat.st_size}").hexdigest()`. The
digest is the parameter `md5hex`; `os.stat` on a missing path raises,
which is the only uncaught exception of the cache path. -/
def get_cache_key (md5hex : String → String) (fs : FileSystem)
    (file_path : String) : Except OSErr String :=
  match fs.stat file_path with
  | none => .error (.fileNotFound file_path)
  | some st =>
    .ok (md5hex (file_path ++ "_" ++ toString st.st_mtime ++ "_" ++
      toString st.st_size))

/-- `ImageProcessor.is_cached` (src/image_service.py lines 184-191):
false when caching is disabled; otherwise true iff the marker file
`{cache_key}.txt` exists in the cache directory. Propagates the
`os.stat` exception of `get_cache_key`. -/
def is_cached (md5hex : String → String) (cfg : Config) (fs : FileSystem)
    (file_path : String) : Except OSErr Bool :=
  if ¬ cfg.enable_caching then .ok false
  else
    match get_cache_key md5hex fs file_path with
    | .error e => .error e
    | .ok cache_key =>
      .ok (fs.pathExists (pathJoin cfg.cache_dir (cache_key ++ ".txt")))

/-- `ImageProcessor.mark_as_cached` (src/image_service.py lines 193-203):
no-op when caching is disabled; otherwise derive the cache key and write
the marker file (directory creation and the write itself always succeed
in the pure model). Returns the write effects. -/
def mark_as_cached (md5hex : String → String) (cfg : Config)
    (fs : FileSystem) (file_path : String) : Except OSErr (List Effect) :=
  if ¬ cfg.enable_caching then .ok []
  else
    match get_cache_key md5hex fs file_path with
    | .error e => .error e
    | .ok cache_key =>
      .ok [.writeMarker (pathJoin cfg.cache_dir (cache_key ++ ".txt"))]

end ImageProcessor

/-- `os.path.basename`: the part of the path after the last separator. -/
def basename (p : String) : String :=
  (p.splitOn "/").getLastD p

/-- `os.path.splitext`: split a filename at its last dot, the extension
including the dot; a name without a dot has an empty extension. -/
def splitext (f : String) : String × String :=
  let parts := f.splitOn "."
  if parts.length ≤ 1 then (f, "")
  else (String.intercalate "." (parts.dropLast), "." ++ parts.getLastD "")

namespace ImageProcessor

/-- The three batch counters owned by the processor
(src/image_service.py lines 60-62). -/
structure Counters where
  processed_count : Nat
  skipped_count : Nat
  error_count : Nat
deriving DecidableEq

/-- `ImageProcessor.process_single_image` (src/image_service.py lines
205-244). If cached, bump the skipped counter and succeed with no
effects. Otherwise validate; on failure bump the error counter and fail.
Otherwise derive the output path `{name}{suffix}.jpg` under the output
directory, run `process_image`, and on success mark cached and bump the
processed counter, on failure bump the error counter. The only uncaught
exception is the `os.stat` of the cache-key derivation inside
`is_cached` / `mark_as_cached`. -/
def process_single_image (md5hex : String → String) (rs : Resample)
    (convertToRGB exifTranspose : Image → Image)
    (cfg : Config) (fs : FileSystem) (c : Counters) (input_path : String) :
    Except OSErr (Bool × Counters × List Effect) :=
  match is_cached md5hex cfg fs input_path with
  | .error e => .error e
  | .ok true =>
    .ok (true, { c with skipped_count := c.skipped_count + 1 }, [])
  | .ok false =>
    let v := validate_image cfg fs input_path
    if ¬ v.1 then
      .ok (false, { c with error_count := c.error_count + 1 }, [])
    else
      let filename := basename input_path
      let name := (splitext filename).1
      let suffix :=
        if v.2.2 then "_processed_with_borders" else "_processed"
      let output_filename := name ++ suffix ++ ".jpg"
      let output_path := pathJoin cfg.output_dir output_filename
      let r := process_image rs convertToRGB exifTranspose cfg fs
        input_path output_path v.2.2
      if r.1 then
        match mark_as_cached md5hex cfg fs input_path with
        | .error e => .error e
        | .ok effs2 =>
          .ok (true, { c with processed_count := c.processed_count + 1 },
            r.2 ++ effs2)
      else
        .ok (false, { c with error_count := c.error_count + 1 }, r.2)

/-- The statistics dictionary returned by `process_directory`
(src/image_service.py lines 280-285). -/
structure Stats where
  processed : Nat
  skipped : Nat
  errors : Nat
  total : Nat
deriving DecidableEq

/-- The sequential per-image loop of `process_directory`
(src/image_service.py lines 276-277): run `process_single_image` on each
path in order, threading the counters and discarding the per-file boolean;
an uncaught exception aborts the loop. -/
def run_images (md5hex : String → String) (rs : Resample)
    (convertToRGB exifTranspose : Image → Image)
    (cfg : Config) (fs : FileSystem) :
    List String → Counters → Except OSErr Counters
  | [], c => .ok c
  | p :: rest, c =>
    match process_single_image md5hex rs convertToRGB exifTranspose
        cfg fs c p with
    | .error e => .error e
    | .ok (_, c2, _) =>
      run_images md5hex rs convertToRGB exifTranspose cfg fs rest c2

/-- `ImageProcessor.process_directory` (src/image_service.py lines
246-290). The recursive `os.walk` enumeration appears as `allFiles`, the
names of all files under the directory (they exist on the filesystem at
enumeration time); the discovered image files are those passing the
extension check. The three counters are reset to zero (whatever their
prior value `c0`), every image file is processed in order, and the stats
report the final counters with `total` the number of discovered files. -/
def process_directory (md5hex : String → String) (rs : Resample)
    (convertToRGB exifTranspose : Image → Image)
    (cfg : Config) (fs : FileSystem) (_c0 : Counters)
    (allFiles : List String) : Except OSErr Stats :=
  let image_files := allFiles.filter (fun f => cfg.is_valid_image_format f)
  match run_images md5hex rs convertToRGB exifTranspose cfg fs
      image_files ⟨0, 0, 0⟩ with
  | .error e => .error e
  | .ok c =>
    .ok ⟨c.processed_count, c.skipped_count, c.error_count,
      image_files.length⟩

end ImageProcessor

/-- Arithmetic rounding of the rational `a / b` to the nearest integer,
halves rounding up: the reading of `round` in the claim under scrutiny. -/
def roundNearest (a b : Nat) : Nat :=
  (2 * a + b) / (2 * b)

/-- A configuration with the default values of `Config.__init__`
(min width 600, quality 85, 10 MB limit, caching on), for concrete
instantiations. -/
def cfg600 : Config :=
  ⟨600, 85, "input", "input/ready-images", 10, true, "cache", 3, 1⟩

/-- A concrete resampling filter for instantiations: every target pixel
white. -/
def rsW : Resample := fun _ _ _ _ _ => whiteRGB

/-- A concrete stand-in digest for instantiations. -/
def md5W : String → String := fun s => "h" ++ s

/-- A concrete 400×1 all-white image, narrower than the 600px minimum. -/
def img400x1 : Image := ⟨400, 1, fun _ _ => whiteRGB⟩

/-- The identity on images, a concrete stand-in for the RGB conversion and
EXIF transposition parameters in instantiations. -/
def idImage : Image → Image := fun img => img

/-- A concrete 600×400 all-white image, exactly at the 600px minimum. -/
def img600 : Image := ⟨600, 400, fun _ _ => whiteRGB⟩

/-- The configuration `cfg600` with caching disabled. -/
def cfgNC : Config :=
  ⟨600, 85, "input", "input/ready-images", 10, false, "cache", 3, 1⟩

/-- A concrete filesystem for instantiations: one decodable image file at
the minimum width whose cache marker (under the stand-in digest `md5W`)
is present, one oversized image file, one undecodable image file, one
text file, and nothing else; every image save succeeds. -/
def fsV : FileSystem where
  stat := fun p =>
    if p = "pic.jpg" then some ⟨100, 2048⟩
    else if p = "big.jpg" then some ⟨100, 11534336⟩
    else if p = "bad.jpg" then some ⟨100, 2048⟩
    else if p = "notes.txt" then some ⟨100, 10⟩
    else if p = "cache/hpic.jpg_100_2048.txt" then some ⟨100, 40⟩
    else none
  decode := fun p =>
    if p = "pic.jpg" then .ok img600
    else .error "cannot identify image file"
  writeOk := fun _ => true

/-- A concrete file list for a batch instantiation. -/
def filesW : List String := ["pic.jpg", "notes.txt", "bad.jpg"]

/-- C1: the claim reads the border transform's new height as arithmetic
rounding to nearest, but the code computes
`int((new_width * height) / width)`, which truncates: at a 400×1 image
with minimum width 600 the code produces height `int(1.5) = 1` while
rounding to nearest gives `2`. -/
theorem C1_counterexample :
    ¬ ((ImageProcessor.add_dark_borders rsW cfg600 img400x1).height =
      roundNearest (600 * 1) 400) := by
  decide

/-- C1 amended: for every image with positive width strictly below the
configured minimum width, the border transform produces an image of
dimensions exactly `(minWidth, floor(minWidth * height / width))` —
truncating division, not rounding to nearest. -/
theorem C1_amended (rs : Resample) (cfg : Config) (img : Image)
    (hw : 0 < img.width) (h : img.width < cfg.min_width) :
    (ImageProcessor.add_dark_borders rs cfg img).width = cfg.min_width ∧
    (ImageProcessor.add_dark_borders rs cfg img).height =
      (cfg.min_width * img.height) / img.width := by
  unfold ImageProcessor.add_dark_borders
  rw [if_neg (by omega)]
  exact ⟨rfl, rfl⟩

/-- C1 amended, instantiated: the 400×1 image under the default 600px
configuration comes out as 600×1. -/
theorem C1_amended_witness :
    0 < img400x1.width ∧ img400x1.width < cfg600.min_width ∧
    ((ImageProcessor.add_dark_borders rsW cfg600 img400x1).width =
        cfg600.min_width ∧
      (ImageProcessor.add_dark_borders rsW cfg600 img400x1).height =
        (cfg600.min_width * img400x1.height) / img400x1.width) :=
  ⟨by decide, by decide,
    C1_amended rsW cfg600 img400x1 (by decide) (by decide)⟩

/-- C2: the claim asserts that for some input some output pixels lie
outside the pasted resized content (and are black there). In the code the
black canvas is created with exactly the resized image's dimensions, so
the paste at offset `(0, 0)` covers the whole canvas: no output pixel of
any input lies outside the pasted content. This refutes the claim's
existential. -/
theorem C2_counterexample :
    ¬ ∃ (cfg : Config) (rs : Resample) (img : Image) (x y : Nat),
        0 < img.width ∧ img.width < cfg.min_width ∧
        x < (ImageProcessor.add_dark_borders rs cfg img).width ∧
        y < (ImageProcessor.add_dark_borders rs cfg img).height ∧
        (cfg.min_width ≤ x ∨
          (cfg.min_width * img.height) / img.width ≤ y) := by
  rintro ⟨cfg, rs, img, x, y, hw, h, hx, hy, hout⟩
  unfold ImageProcessor.add_dark_borders at hx hy
  rw [if_neg (by omega)] at hx hy
  simp only [Image.paste, Image.new, Image.resize] at hx hy
  rcases hout with h1 | h2 <;> omega

/-- C2 amended: for every image with positive width strictly below the
configured minimum width, the border transform pastes the resized image at
offset `(0, 0)` — flush to the top-left corner — onto a black canvas whose
dimensions equal the resized image's, so every in-bounds output pixel is
the corresponding pixel of the resized content and no dark fill remains
exposed anywhere, for any input. -/
theorem C2_amended (rs : Resample) (cfg : Config) (img : Image)
    (hw : 0 < img.width) (h : img.width < cfg.min_width) :
    ∀ x y, x < (ImageProcessor.add_dark_borders rs cfg img).width →
      y < (ImageProcessor.add_dark_borders rs cfg img).height →
      (ImageProcessor.add_dark_borders rs cfg img).pixel x y =
        (Image.resize rs img cfg.min_width
          ((cfg.min_width * img.height) / img.width)).pixel x y := by
  intro x y hx hy
  unfold ImageProcessor.add_dark_borders at hx hy ⊢
  rw [if_neg (by omega)] at hx hy ⊢
  simp only [Image.paste, Image.new, Image.resize] at hx hy ⊢
  rw [if_pos (by omega)]
  simp

/-- C2 amended, instantiated: the pixel `(0, 0)` of the bordered 400×1
image is the resized content's pixel `(0, 0)`. -/
theorem C2_amended_witness :
    0 < img400x1.width ∧ img400x1.width < cfg600.min_width ∧
    (ImageProcessor.add_dark_borders rsW cfg600 img400x1).pixel 0 0 =
      (Image.resize rsW img400x1 cfg600.min_width
        ((cfg600.min_width * img400x1.height) / img400x1.width)).pixel
        0 0 :=
  ⟨by decide, by decide,
    C2_amended rsW cfg600 img400x1 (by decide) (by decide) 0 0
      (by decide) (by decide)⟩

/-- C10: for every configuration and filename, `is_valid_image_format`
returns true exactly when the lowercased filename ends with `.jpg`,
`.jpeg` or `.png`. -/
theorem C10_is_valid_image_format (cfg : Config) (filename : String) :
    cfg.is_valid_image_format filename = true ↔
      (pyEndsWith (pyLower filename) ".jpg" ∨
        pyEndsWith (pyLower filename) ".jpeg" ∨
        pyEndsWith (pyLower filename) ".png") := by
  simp [Config.is_valid_image_format, Config.supported_formats]

/-- C8: whenever validation reaches a successfully decoded image (valid
extension, file present, size within the limit, decode succeeds), the
result is valid with `needs_borders = (width < minWidth)`; at the boundary
`width = minWidth` the borders flag is false. -/
theorem C8_needs_borders (cfg : Config) (fs : FileSystem) (path : String)
    (st : FileStat) (img : Image)
    (hext : cfg.is_valid_image_format path = true)
    (hstat : fs.stat path = some st)
    (hsize : ¬ st.st_size > cfg.max_file_size_mb * (1024 * 1024))
    (hdec : fs.decode path = .ok img) :
    ImageProcessor.validate_image cfg fs path =
      (true, "", decide (img.width < cfg.min_width)) ∧
    (img.width = cfg.min_width →
      (ImageProcessor.validate_image cfg fs path).2.2 = false) := by
  have hv : ImageProcessor.validate_image cfg fs path =
      (true, "", decide (img.width < cfg.min_width)) := by
    unfold ImageProcessor.validate_image
    rw [if_neg (by simp [hext]), hstat]
    simp only []
    rw [if_neg hsize, hdec]
  refine ⟨hv, fun hw => ?_⟩
  rw [hv]
  simp [hw]

/-- C8 instantiated: the 600×400 image at the 600px boundary validates
with the borders flag false. -/
theorem C8_needs_borders_witness :
    cfg600.is_valid_image_format "pic.jpg" = true ∧
    fsV.stat "pic.jpg" = some ⟨100, 2048⟩ ∧
    fsV.decode "pic.jpg" = .ok img600 ∧
    img600.width = cfg600.min_width ∧
    (ImageProcessor.validate_image cfg600 fsV "pic.jpg" =
        (true, "", decide (img600.width < cfg600.min_width)) ∧
      (img600.width = cfg600.min_width →
        (ImageProcessor.validate_image cfg600 fsV "pic.jpg").2.2 =
          false)) :=
  ⟨by decide, rfl, rfl, rfl,
    C8_needs_borders cfg600 fsV "pic.jpg" ⟨100, 2048⟩ img600 (by decide)
      rfl (by decide) rfl⟩

/-- C6: the four validation checks short-circuit in order — an invalid
extension decides the result whatever the filesystem says; with a valid
extension a missing file decides it whatever the size or image data; with
the file present an oversized file decides it whatever the image data, the
message carrying the measured size to one decimal place and the configured
limit; and only then a decode failure yields the generic message with the
underlying error text. -/
theorem C6_validate_order (cfg : Config) (fs : FileSystem) (path : String) :
    (cfg.is_valid_image_format path = false →
      ImageProcessor.validate_image cfg fs path =
        (false, invalidExtensionMsg, false)) ∧
    (cfg.is_valid_image_format path = true → fs.stat path = none →
      ImageProcessor.validate_image cfg fs path =
        (false, "File does not exist", false)) ∧
    (∀ st, cfg.is_valid_image_format path = true → fs.stat path = some st →
      st.st_size > cfg.max_file_size_mb * (1024 * 1024) →
      ImageProcessor.validate_image cfg fs path =
        (false, tooLargeMsg st.st_size cfg.max_file_size_mb, false)) ∧
    (∀ st e, cfg.is_valid_image_format path = true →
      fs.stat path = some st →
      ¬ st.st_size > cfg.max_file_size_mb * (1024 * 1024) →
      fs.decode path = .error e →
      ImageProcessor.validate_image cfg fs path =
        (false, "Error validating image: " ++ e, false)) := by
  refine ⟨fun h1 => ?_, fun h1 h2 => ?_, fun st h1 h2 h3 => ?_,
    fun st e h1 h2 h3 h4 => ?_⟩
  · unfold ImageProcessor.validate_image
    rw [if_pos (by simp [h1])]
  · unfold ImageProcessor.validate_image
    rw [if_neg (by simp [h1]), h2]
  · unfold ImageProcessor.validate_image
    rw [if_neg (by simp [h1]), h2]
    simp only []
    rw [if_pos h3]
  · unfold ImageProcessor.validate_image
    rw [if_neg (by simp [h1]), h2]
    simp only []
    rw [if_neg h3, h4]

/-- C6 instantiated: each of the four failure branches at a concrete
file of `fsV` (the oversized file is 11534336 bytes = 11.0 MB). -/
theorem C6_validate_order_witness :
    ImageProcessor.validate_image cfg600 fsV "notes.txt" =
      (false, invalidExtensionMsg, false) ∧
    ImageProcessor.validate_image cfg600 fsV "absent.jpg" =
      (false, "File does not exist", false) ∧
    ImageProcessor.validate_image cfg600 fsV "big.jpg" =
      (false, tooLargeMsg 11534336 cfg600.max_file_size_mb, false) ∧
    ImageProcessor.validate_image cfg600 fsV "bad.jpg" =
      (false, "Error validating image: " ++ "cannot identify image file",
        false) :=
  ⟨(C6_validate_order cfg600 fsV "notes.txt").1 (by decide),
    (C6_validate_order cfg600 fsV "absent.jpg").2.1 (by decide) rfl,
    (C6_validate_order cfg600 fsV "big.jpg").2.2.1 ⟨100, 11534336⟩
      (by decide) rfl (by decide),
    (C6_validate_order cfg600 fsV "bad.jpg").2.2.2 ⟨100, 2048⟩
      "cannot identify image file" (by decide) rfl (by decide) rfl⟩

/-- C5: with caching disabled `is_cached` returns false for every path;
with caching enabled (and the file present, so `os.stat` yields its
mtime and size) it returns true exactly when the marker file
`{digest(path + "_" + mtime + "_" + size)}.txt` exists in the cache
directory. -/
theorem C5_is_cached (md5hex : String → String) (cfg : Config)
    (fs : FileSystem) (path : String) :
    (cfg.enable_caching = false →
      ImageProcessor.is_cached md5hex cfg fs path = .ok false) ∧
    (∀ st, cfg.enable_caching = true → fs.stat path = some st →
      ImageProcessor.is_cached md5hex cfg fs path =
        .ok (fs.pathExists (pathJoin cfg.cache_dir
          (md5hex (path ++ "_" ++ toString st.st_mtime ++ "_" ++
            toString st.st_size) ++ ".txt")))) := by
  constructor
  · intro h
    unfold ImageProcessor.is_cached
    rw [if_pos (by simp [h])]
  · intro st h1 h2
    unfold ImageProcessor.is_cached ImageProcessor.get_cache_key
    rw [if_neg (by simp [h1]), h2]

/-- C5 instantiated: caching off gives false; caching on gives the
existence bit of the concrete marker path (here present, hence true). -/
theorem C5_is_cached_witness :
    ImageProcessor.is_cached md5W cfgNC fsV "pic.jpg" = .ok false ∧
    ImageProcessor.is_cached md5W cfg600 fsV "pic.jpg" =
      .ok (fsV.pathExists (pathJoin cfg600.cache_dir
        (md5W ("pic.jpg" ++ "_" ++ toString (100 : Nat) ++ "_" ++
          toString (2048 : Nat)) ++ ".txt"))) :=
  ⟨(C5_is_cached md5W cfgNC fsV "pic.jpg").1 rfl,
    (C5_is_cached md5W cfg600 fsV "pic.jpg").2 ⟨100, 2048⟩ rfl rfl⟩

namespace ImageProcessor

/-- Helper: the cached branch of `process_single_image` bumps only the
skipped counter and performs no effects. -/
lemma psi_cached (md5hex : String → String) (rs : Resample)
    (cv ex : Image → Image) (cfg : Config) (fs : FileSystem)
    (c : Counters) (p : String)
    (hic : is_cached md5hex cfg fs p = .ok true) :
    process_single_image md5hex rs cv ex cfg fs c p =
      .ok (true, { c with skipped_count := c.skipped_count + 1 }, []) := by
  unfold process_single_image
  rw [hic]

/-- Helper: a path whose `stat` is `isSome` has a concrete stat value. -/
lemma stat_some_of (fs : FileSystem) (p : String)
    (h : (fs.stat p).isSome = true) : ∃ st, fs.stat p = some st := by
  cases hx : fs.stat p with
  | none => rw [hx] at h; simp at h
  | some st => exact ⟨st, rfl⟩

/-- Helper: when the file exists whenever caching is enabled, `is_cached`
returns normally. -/
lemma is_cached_ok (md5hex : String → String) (cfg : Config)
    (fs : FileSystem) (p : String)
    (hstat : cfg.enable_caching = true → (fs.stat p).isSome = true) :
    ∃ b, is_cached md5hex cfg fs p = .ok b := by
  by_cases hc : cfg.enable_caching = true
  · obtain ⟨st, hst⟩ := stat_some_of fs p (hstat hc)
    refine ⟨fs.pathExists (pathJoin cfg.cache_dir
      (md5hex (p ++ "_" ++ toString st.st_mtime ++ "_" ++
        toString st.st_size) ++ ".txt")), ?_⟩
    unfold is_cached get_cache_key
    rw [if_neg (by simp [hc]), hst]
  · refine ⟨false, ?_⟩
    unfold is_cached
    rw [if_pos (by simpa using hc)]

/-- Helper: when the file exists whenever caching is enabled,
`mark_as_cached` returns normally. -/
lemma mark_as_cached_ok (md5hex : String → String) (cfg : Config)
    (fs : FileSystem) (p : String)
    (hstat : cfg.enable_caching = true → (fs.stat p).isSome = true) :
    ∃ effs2, mark_as_cached md5hex cfg fs p = .ok effs2 := by
  by_cases hc : cfg.enable_caching = true
  · obtain ⟨st, hst⟩ := stat_some_of fs p (hstat hc)
    refine ⟨[.writeMarker (pathJoin cfg.cache_dir
      (md5hex (p ++ "_" ++ toString st.st_mtime ++ "_" ++
        toString st.st_size) ++ ".txt"))], ?_⟩
    unfold mark_as_cached get_cache_key
    rw [if_neg (by simp [hc]), hst]
  · refine ⟨[], ?_⟩
    unfold mark_as_cached
    rw [if_pos (by simpa using hc)]

/-- Helper: the validation-failure branch of `process_single_image` bumps
only the error counter and performs no effects. -/
lemma psi_validate_fail (md5hex : String → String) (rs : Resample)
    (cv ex : Image → Image) (cfg : Config) (fs : FileSystem)
    (c : Counters) (p : String)
    (hic : is_cached md5hex cfg fs p = .ok false)
    (hv : (validate_image cfg fs p).1 = false) :
    process_single_image md5hex rs cv ex cfg fs c p =
      .ok (false, { c with error_count := c.error_count + 1 }, []) := by
  unfold process_single_image
  rw [hic]
  simp only [hv]
  rw [if_pos (by simp)]

/-- Helper: the successful-transform branch of `process_single_image`
bumps only the processed counter, with the transform effects followed by
the cache-marker effects. -/
lemma psi_process_ok (md5hex : String → String) (rs : Resample)
    (cv ex : Image → Image) (cfg : Config) (fs : FileSystem)
    (c : Counters) (p : String) (effs2 : List Effect)
    (hic : is_cached md5hex cfg fs p = .ok false)
    (hv : (validate_image cfg fs p).1 = true)
    (hr : (process_image rs cv ex cfg fs p
      (pathJoin cfg.output_dir ((splitext (basename p)).1 ++
        (if (validate_image cfg fs p).2.2 then "_processed_with_borders"
          else "_processed") ++ ".jpg"))
      (validate_image cfg fs p).2.2).1 = true)
    (hmk : mark_as_cached md5hex cfg fs p = .ok effs2) :
    process_single_image md5hex rs cv ex cfg fs c p =
      .ok (true, { c with processed_count := c.processed_count + 1 },
        (process_image rs cv ex cfg fs p
          (pathJoin cfg.output_dir ((splitext (basename p)).1 ++
            (if (validate_image cfg fs p).2.2 then
              "_processed_with_borders" else "_processed") ++ ".jpg"))
          (validate_image cfg fs p).2.2).2 ++ effs2) := by
  unfold process_single_image
  rw [hic]
  simp only [hv]
  rw [if_neg (by simp)]
  simp only [hr, if_true]
  rw [hmk]

/-- Helper: the failed-transform branch of `process_single_image` bumps
only the error counter. -/
lemma psi_process_fail (md5hex : String → String) (rs : Resample)
    (cv ex : Image → Image) (cfg : Config) (fs : FileSystem)
    (c : Counters) (p : String)
    (hic : is_cached md5hex cfg fs p = .ok false)
    (hv : (validate_image cfg fs p).1 = true)
    (hr : (process_image rs cv ex cfg fs p
      (pathJoin cfg.output_dir ((splitext (basename p)).1 ++
        (if (validate_image cfg fs p).2.2 then "_processed_with_borders"
          else "_processed") ++ ".jpg"))
      (validate_image cfg fs p).2.2).1 = false) :
    process_single_image md5hex rs cv ex cfg fs c p =
      .ok (false, { c with error_count := c.error_count + 1 },
        (process_image rs cv ex cfg fs p
          (pathJoin cfg.output_dir ((splitext (basename p)).1 ++
            (if (validate_image cfg fs p).2.2 then
              "_processed_with_borders" else "_processed") ++ ".jpg"))
          (validate_image cfg fs p).2.2).2) := by
  unfold process_single_image
  rw [hic]
  simp only [hv]
  rw [if_neg (by simp)]
  simp only [hr]
  rw [if_neg (by simp)]

/-- Helper: a `mark_as_cached` exception propagates out of
`process_single_image` after a successful transform. -/
lemma psi_mark_error (md5hex : String → String) (rs : Resample)
    (cv ex : Image → Image) (cfg : Config) (fs : FileSystem)
    (c : Counters) (p : String) (e : OSErr)
    (hic : is_cached md5hex cfg fs p = .ok false)
    (hv : (validate_image cfg fs p).1 = true)
    (hr : (process_image rs cv ex cfg fs p
      (pathJoin cfg.output_dir ((splitext (basename p)).1 ++
        (if (validate_image cfg fs p).2.2 then "_processed_with_borders"
          else "_processed") ++ ".jpg"))
      (validate_image cfg fs p).2.2).1 = true)
    (hmk : mark_as_cached md5hex cfg fs p = .error e) :
    process_single_image md5hex rs cv ex cfg fs c p = .error e := by
  unfold process_single_image
  rw [hic]
  simp only [hv]
  rw [if_neg (by simp)]
  simp only [hr, if_true]
  rw [hmk]

/-- Helper: whenever the file exists if caching is enabled,
`process_single_image` returns normally and bumps exactly one of the three
counters by one. -/
lemma psi_total (md5hex : String → String) (rs : Resample)
    (cv ex : Image → Image) (cfg : Config) (fs : FileSystem)
    (c : Counters) (p : String)
    (hstat : cfg.enable_caching = true → (fs.stat p).isSome = true) :
    ∃ b c2 effs, process_single_image md5hex rs cv ex cfg fs c p =
        .ok (b, c2, effs) ∧
      (c2 = { c with processed_count := c.processed_count + 1 } ∨
        c2 = { c with skipped_count := c.skipped_count + 1 } ∨
        c2 = { c with error_count := c.error_count + 1 }) := by
  obtain ⟨b0, hic⟩ := is_cached_ok md5hex cfg fs p hstat
  cases b0 with
  | true =>
    exact ⟨_, _, _, psi_cached md5hex rs cv ex cfg fs c p hic,
      Or.inr (Or.inl rfl)⟩
  | false =>
    by_cases hv : (validate_image cfg fs p).1 = true
    · by_cases hr : (process_image rs cv ex cfg fs p
        (pathJoin cfg.output_dir ((splitext (basename p)).1 ++
          (if (validate_image cfg fs p).2.2 then "_processed_with_borders"
            else "_processed") ++ ".jpg"))
        (validate_image cfg fs p).2.2).1 = true
      · obtain ⟨effs2, hmk⟩ := mark_as_cached_ok md5hex cfg fs p hstat
        exact ⟨_, _, _,
          psi_process_ok md5hex rs cv ex cfg fs c p effs2 hic hv hr hmk,
          Or.inl rfl⟩
      · exact ⟨_, _, _,
          psi_process_fail md5hex rs cv ex cfg fs c p hic hv
            (by simpa using hr),
          Or.inr (Or.inr rfl)⟩
    · exact ⟨_, _, _,
        psi_validate_fail md5hex rs cv ex cfg fs c p hic
          (by simpa using hv),
        Or.inr (Or.inr rfl)⟩

/-- Helper: the per-image loop returns normally when every listed file
exists (if caching is enabled), and the final counter sum grows by exactly
the number of files. -/
lemma run_images_total (md5hex : String → String) (rs : Resample)
    (cv ex : Image → Image) (cfg : Config) (fs : FileSystem)
    (files : List String) (c : Counters)
    (hstat : ∀ f ∈ files,
      cfg.enable_caching = true → (fs.stat f).isSome = true) :
    ∃ c2, run_images md5hex rs cv ex cfg fs files c = .ok c2 ∧
      c2.processed_count + c2.skipped_count + c2.error_count =
        c.processed_count + c.skipped_count + c.error_count +
          files.length := by
  induction files generalizing c with
  | nil => exact ⟨c, rfl, by simp⟩
  | cons p rest ih =>
    obtain ⟨b, c1, effs, hp, hdisj⟩ :=
      psi_total md5hex rs cv ex cfg fs c p (hstat p (by simp))
    have hsum : c1.processed_count + c1.skipped_count + c1.error_count =
        c.processed_count + c.skipped_count + c.error_count + 1 := by
      rcases hdisj with h | h | h <;> rw [h] <;> simp <;> omega
    obtain ⟨c2, hrun, hs2⟩ :=
      ih c1 (fun f hf hc => hstat f (by simp [hf]) hc)
    refine ⟨c2, ?_, by simp only [List.length_cons]; omega⟩
    unfold run_images
    rw [hp]
    exact hrun

end ImageProcessor

/-- C3: with caching enabled, `process_single_image` on a path whose
`os.stat` fails raises the uncaught exception from `get_cache_key` inside
`is_cached` — it returns no boolean and leaves the counters untouched
(the error result carries no counter state) — and consequently whenever
it does return normally under enabled caching the file's stat succeeded,
so the "File does not exist" validation branch (which requires a failing
stat) is unreachable with caching enabled. -/
theorem C3_cache_stat_exception (md5hex : String → String) (rs : Resample)
    (cv ex : Image → Image) (cfg : Config) (fs : FileSystem)
    (c : ImageProcessor.Counters) (path : String)
    (hc : cfg.enable_caching = true) (hstat : fs.stat path = none) :
    ImageProcessor.process_single_image md5hex rs cv ex cfg fs c path =
      .error (.fileNotFound path) ∧
    (∀ (fs2 : FileSystem) (path2 : String) r,
      ImageProcessor.process_single_image md5hex rs cv ex cfg fs2 c
        path2 = .ok r →
      (fs2.stat path2).isSome = true) := by
  have key : ∀ (fs2 : FileSystem) (p2 : String), fs2.stat p2 = none →
      ImageProcessor.process_single_image md5hex rs cv ex cfg fs2 c p2 =
        .error (.fileNotFound p2) := by
    intro fs2 p2 h2
    have hic : ImageProcessor.is_cached md5hex cfg fs2 p2 =
        .error (.fileNotFound p2) := by
      unfold ImageProcessor.is_cached ImageProcessor.get_cache_key
      rw [if_neg (by simp [hc]), h2]
    unfold ImageProcessor.process_single_image
    rw [hic]
  refine ⟨key fs path hstat, fun fs2 path2 r h => ?_⟩
  cases hst : fs2.stat path2 with
  | some st => simp [Option.isSome]
  | none =>
    rw [key fs2 path2 hst] at h
    exact absurd h (by simp)

/-- C3 instantiated: the missing path under the caching-enabled default
configuration yields the propagated stat exception. -/
theorem C3_cache_stat_exception_witness :
    cfg600.enable_caching = true ∧ fsV.stat "absent.jpg" = none ∧
    (ImageProcessor.process_single_image md5W rsW idImage idImage cfg600
        fsV ⟨0, 0, 0⟩ "absent.jpg" = .error (.fileNotFound "absent.jpg") ∧
      (∀ (fs2 : FileSystem) (path2 : String) r,
        ImageProcessor.process_single_image md5W rsW idImage idImage cfg600
          fs2 ⟨0, 0, 0⟩ path2 = .ok r →
        (fs2.stat path2).isSome = true)) :=
  ⟨rfl, rfl,
    C3_cache_stat_exception md5W rsW idImage idImage cfg600 fsV ⟨0, 0, 0⟩
      "absent.jpg" rfl rfl⟩

/-- C9: on a cached path, `process_single_image` bumps the skipped counter
by one, leaves the other two counters unchanged, returns success, and
performs no effects at all — no source-content read, no output write, no
marker write (the empty effect list). -/
theorem C9_cached_skip (md5hex : String → String) (rs : Resample)
    (cv ex : Image → Image) (cfg : Config) (fs : FileSystem)
    (c : ImageProcessor.Counters) (path : String)
    (h : ImageProcessor.is_cached md5hex cfg fs path = .ok true) :
    ImageProcessor.process_single_image md5hex rs cv ex cfg fs c path =
      .ok (true, { c with skipped_count := c.skipped_count + 1 }, []) := by
  unfold ImageProcessor.process_single_image
  rw [h]

/-- C9 instantiated: the concretely cached file is skipped, counters
`(1, 2, 3)` becoming `(1, 3, 3)`, with no effects. -/
theorem C9_cached_skip_witness :
    ImageProcessor.is_cached md5W cfg600 fsV "pic.jpg" = .ok true ∧
    ImageProcessor.process_single_image md5W rsW idImage idImage cfg600
      fsV ⟨1, 2, 3⟩ "pic.jpg" = .ok (true, ⟨1, 3, 3⟩, []) :=
  ⟨rfl, C9_cached_skip md5W rsW idImage idImage cfg600 fsV ⟨1, 2, 3⟩
    "pic.jpg" rfl⟩

/-- C4: `process_directory` ignores the prior counter values (reset to
zero), returns stats whose `total` is the number of discovered files
passing the extension check, with `total = processed + skipped + errors`;
and every `process_single_image` call on a discovered file returns
normally, bumping exactly one of the three counters by exactly one. The
hypothesis says each enumerated file exists on the filesystem, which
`os.walk` guarantees for the pure single-run model. -/
theorem C4_stats (md5hex : String → String) (rs : Resample)
    (cv ex : Image → Image) (cfg : Config) (fs : FileSystem)
    (c0 : ImageProcessor.Counters) (allFiles : List String)
    (hstat : ∀ f ∈ allFiles,
      cfg.enable_caching = true → (fs.stat f).isSome = true) :
    ImageProcessor.process_directory md5hex rs cv ex cfg fs c0 allFiles =
      ImageProcessor.process_directory md5hex rs cv ex cfg fs
        ⟨0, 0, 0⟩ allFiles ∧
    (∃ stats,
      ImageProcessor.process_directory md5hex rs cv ex cfg fs c0 allFiles =
        .ok stats ∧
      stats.total =
        (allFiles.filter (fun f => cfg.is_valid_image_format f)).length ∧
      stats.total = stats.processed + stats.skipped + stats.errors) ∧
    (∀ (c : ImageProcessor.Counters) (p : String), p ∈ allFiles →
      ∃ b c2 effs,
        ImageProcessor.process_single_image md5hex rs cv ex cfg fs c p =
          .ok (b, c2, effs) ∧
        (c2 = { c with processed_count := c.processed_count + 1 } ∨
          c2 = { c with skipped_count := c.skipped_count + 1 } ∨
          c2 = { c with error_count := c.error_count + 1 })) := by
  refine ⟨rfl, ?_, fun c p hp =>
    ImageProcessor.psi_total md5hex rs cv ex cfg fs c p (hstat p hp)⟩
  obtain ⟨c2, hrun, hsum⟩ :=
    ImageProcessor.run_images_total md5hex rs cv ex cfg fs
      (allFiles.filter (fun f => cfg.is_valid_image_format f)) ⟨0, 0, 0⟩
      (fun f hf => hstat f (List.mem_of_mem_filter hf))
  refine ⟨⟨c2.processed_count, c2.skipped_count, c2.error_count,
    (allFiles.filter (fun f => cfg.is_valid_image_format f)).length⟩,
    ?_, rfl, ?_⟩
  · simp only [ImageProcessor.process_directory]
    rw [hrun]
  · have hsum2 : c2.processed_count + c2.skipped_count + c2.error_count =
        0 + 0 + 0 +
          (allFiles.filter (fun f => cfg.is_valid_image_format f)).length :=
      hsum
    show (allFiles.filter (fun f => cfg.is_valid_image_format f)).length =
      c2.processed_count + c2.skipped_count + c2.error_count
    omega

/-- C4 instantiated: the three-file batch (one cached image, one text
file excluded from discovery, one undecodable image) under prior counters
`(7, 7, 7)`. -/
theorem C4_stats_witness :
    (∀ f ∈ filesW,
      cfg600.enable_caching = true → (fsV.stat f).isSome = true) ∧
    (ImageProcessor.process_directory md5W rsW idImage idImage cfg600 fsV
        ⟨7, 7, 7⟩ filesW =
      ImageProcessor.process_directory md5W rsW idImage idImage cfg600 fsV
        ⟨0, 0, 0⟩ filesW ∧
    (∃ stats,
      ImageProcessor.process_directory md5W rsW idImage idImage cfg600 fsV
          ⟨7, 7, 7⟩ filesW = .ok stats ∧
      stats.total =
        (filesW.filter (fun f => cfg600.is_valid_image_format f)).length ∧
      stats.total = stats.processed + stats.skipped + stats.errors) ∧
    (∀ (c : ImageProcessor.Counters) (p : String), p ∈ filesW →
      ∃ b c2 effs,
        ImageProcessor.process_single_image md5W rsW idImage idImage cfg600
          fsV c p = .ok (b, c2, effs) ∧
        (c2 = { c with processed_count := c.processed_count + 1 } ∨
          c2 = { c with skipped_count := c.skipped_count + 1 } ∨
          c2 = { c with error_count := c.error_count + 1 }))) :=
  ⟨by decide,
    C4_stats md5W rsW idImage idImage cfg600 fsV ⟨7, 7, 7⟩ filesW
      (by decide)⟩

/-- C7: per-file errors are isolated. A `process_single_image` call that
reports failure (its boolean is false — exactly the validation-failure and
transform-failure branches) has bumped the error counter by one and left
the other counters unchanged, and the batch loop on `p :: rest` continues
as the loop on `rest` from those updated counters: no failing file aborts
the batch. -/
theorem C7_error_isolation (md5hex : String → String) (rs : Resample)
    (cv ex : Image → Image) (cfg : Config) (fs : FileSystem)
    (c c2 : ImageProcessor.Counters) (p : String) (rest : List String)
    (effs : List ImageProcessor.Effect)
    (hfail : ImageProcessor.process_single_image md5hex rs cv ex cfg fs c
      p = .ok (false, c2, effs)) :
    c2 = { c with error_count := c.error_count + 1 } ∧
    ImageProcessor.run_images md5hex rs cv ex cfg fs (p :: rest) c =
      ImageProcessor.run_images md5hex rs cv ex cfg fs rest c2 := by
  constructor
  · cases hic : ImageProcessor.is_cached md5hex cfg fs p with
    | error e =>
      rw [show ImageProcessor.process_single_image md5hex rs cv ex cfg fs
          c p = .error e by
        unfold ImageProcessor.process_single_image; rw [hic]] at hfail
      exact absurd hfail (by simp)
    | ok b =>
      cases b with
      | true =>
        rw [ImageProcessor.psi_cached md5hex rs cv ex cfg fs c p hic]
          at hfail
        exact absurd hfail (by simp)
      | false =>
        by_cases hv : (ImageProcessor.validate_image cfg fs p).1 = true
        · by_cases hr : (ImageProcessor.process_image rs cv ex cfg fs p
            (pathJoin cfg.output_dir ((splitext (basename p)).1 ++
              (if (ImageProcessor.validate_image cfg fs p).2.2 then
                "_processed_with_borders" else "_processed") ++ ".jpg"))
            (ImageProcessor.validate_image cfg fs p).2.2).1 = true
          · cases hmk : ImageProcessor.mark_as_cached md5hex cfg fs p with
            | error e =>
              rw [ImageProcessor.psi_mark_error md5hex rs cv ex cfg fs c p
                e hic hv hr hmk] at hfail
              exact absurd hfail (by simp)
            | ok effs2 =>
              rw [ImageProcessor.psi_process_ok md5hex rs cv ex cfg fs c p
                effs2 hic hv hr hmk] at hfail
              exact absurd hfail (by simp)
          · rw [ImageProcessor.psi_process_fail md5hex rs cv ex cfg fs c p
              hic hv (by simpa using hr)] at hfail
            simp only [Except.ok.injEq, Prod.mk.injEq] at hfail
            exact hfail.2.1.symm
        · rw [ImageProcessor.psi_validate_fail md5hex rs cv ex cfg fs c p
            hic (by simpa using hv)] at hfail
          simp only [Except.ok.injEq, Prod.mk.injEq] at hfail
          exact hfail.2.1.symm
  · simp only [ImageProcessor.run_images, hfail]

/-- C7 instantiated: the undecodable file fails validation, bumps only the
error counter, and the loop continues with the next file. -/
theorem C7_error_isolation_witness :
    ImageProcessor.process_single_image md5W rsW idImage idImage cfg600 fsV
      ⟨0, 0, 0⟩ "bad.jpg" = .ok (false, ⟨0, 0, 1⟩, []) ∧
    ((⟨0, 0, 1⟩ : ImageProcessor.Counters) =
      { (⟨0, 0, 0⟩ : ImageProcessor.Counters) with
        error_count := 0 + 1 } ∧
    ImageProcessor.run_images md5W rsW idImage idImage cfg600 fsV
        ("bad.jpg" :: ["pic.jpg"]) ⟨0, 0, 0⟩ =
      ImageProcessor.run_images md5W rsW idImage idImage cfg600 fsV
        ["pic.jpg"] ⟨0, 0, 1⟩) :=
  ⟨by rfl,
    C7_error_isolation md5W rsW idImage idImage cfg600 fsV ⟨0, 0, 0⟩
      ⟨0, 0, 1⟩ "bad.jpg" ["pic.jpg"] [] (by rfl)⟩
